import Mathlib

/-! Verification development for the container-movement dashboard
(`dashboard.py`).  The Python program loads a flat table of container
movements, enriches coded columns through lookup dictionaries, filters the
rows by user-selected discrete values and inclusive date ranges, and renders
aggregates plus a renamed detail table.  Everything below is a shallow
embedding of that pipeline: pandas Series become lists, dictionaries become
association lists, dates become `Option Nat` (day ordinals; `NaT`/null is
`none`), and scalar cells become `PyVal` values (`Option PyVal` where the
cell may be SQL `NULL`).
-/

/-- A scalar cell value as it arrives from the database: either a number or
a string.  `str(v)` from Python is `pyStr`. -/
inductive PyVal where
  | pint (n : Int)
  | pstr (s : String)
deriving DecidableEq

/-- Python `str` applied to a non-null cell. -/
def pyStr : PyVal → String
  | .pint n => toString n
  | .pstr s => s

/-- Python `str` applied to a possibly-null cell (`astype(str)` renders a
missing object-column entry as the string form of `None`). -/
def pyStrOpt : Option PyVal → String
  | none => "None"
  | some v => pyStr v

/-- Lookup in a dictionary built by successive insertion (`to_dict` after
`set_index`): a later binding of the same key overwrites an earlier one,
so the search prefers the last matching pair. -/
def dict_get {α β : Type} [DecidableEq α] : List (α × β) → α → Option β
  | [], _ => none
  | (k, v) :: rest, k' =>
    match dict_get rest k' with
    | some w => some w
    | none => if k = k' then some v else none

/-- The four code→description dictionaries built in `load_data` from the
`estatus_contenedor`, `contenido_contenedor`, `puertosInternacionales` and
`calificador_de_equipo` tables.  The ports dictionary is keyed by the
stringified code (`str(code)` is applied before the lookup); the other
three are keyed by the raw cell value. -/
structure Lookups where
  status_map : List (PyVal × String)
  content_map : List (PyVal × String)
  ports_map : List (String × String)
  eqd_qual_map : List (PyVal × String)

/-- One raw row of `movimiento_contenedores` restricted to the columns the
filter/enrichment logic touches.  The two date columns are already the
result of `pd.to_datetime(..., errors=coerce).dt.date`: a null or
unparseable date is `none`. -/
structure RawRec where
  id : Int
  operator : Option PyVal
  loading_port : Option PyVal
  discharge_port : Option PyVal
  delivery_port : Option PyVal
  port_register : Option PyVal
  status : Option PyVal
  full_empty : Option PyVal
  eqd_qual : Option PyVal
  arrival_date : Option Nat
  departure_date : Option Nat
deriving DecidableEq

/-- `map_loading_port` from `load_data`: empty string for a null code, the
port description when `str(code)` is a key of the ports dictionary, and the
raw code value itself otherwise. -/
def map_loading_port (pm : List (String × String)) : Option PyVal → PyVal
  | none => .pstr ""
  | some v =>
    match dict_get pm (pyStr v) with
    | some d => .pstr d
    | none => v

/-- The `.map(lookup).fillna(Desconocido)` pattern used for the status,
content and equipment-qualifier columns: a null code or an unmapped code
both become the placeholder. -/
def mapFillna (m : List (PyVal × String)) : Option PyVal → String
  | none => "Desconocido"
  | some v =>
    match dict_get m v with
    | some d => d
    | none => "Desconocido"

/-- An enriched movement row: the derived label columns added by
`load_data` alongside the raw columns the filters read.  The field
`full_empty_` embeds the pandas column named `full_/_empty_`, and
`eqd_qual_` the column named `eqd_-_qual`. -/
structure Movimiento where
  id : Int
  operator : Option PyVal
  loading_port_ : PyVal
  discharge_port : PyVal
  delivery_port : PyVal
  port_register_ : PyVal
  status_ : String
  full_empty_ : String
  eqd_qual_ : String
  arrival_date : Option Nat
  departure_date : Option Nat
deriving DecidableEq

/-- The enrichment block of `load_data` applied to one row. -/
def enrich (lk : Lookups) (r : RawRec) : Movimiento where
  id := r.id
  operator := r.operator
  loading_port_ := map_loading_port lk.ports_map r.loading_port
  discharge_port := map_loading_port lk.ports_map r.discharge_port
  delivery_port := map_loading_port lk.ports_map r.delivery_port
  port_register_ := map_loading_port lk.ports_map r.port_register
  status_ := mapFillna lk.status_map r.status
  full_empty_ := mapFillna lk.content_map r.full_empty
  eqd_qual_ := mapFillna lk.eqd_qual_map r.eqd_qual
  arrival_date := r.arrival_date
  departure_date := r.departure_date

/-- The error banner printed by the `except` branch of `load_data`. -/
def db_error_msg (e : String) : String :=
  "Error al conectar o cargar datos de la base de datos: " ++ e

/-- The advisory note printed by the `except` branch of `load_data`. -/
def db_info_msg : String :=
  "Por favor, asegúrate de que MariaDB/MySQL esté corriendo y las credenciales en el script `dashboard.py` sean correctas."

/-- The two exception classes a database failure can surface as inside the
`try` block of `load_data`.  `connectorError` is a `mysql.connector.Error`
(raised by `mysql.connector.connect`, and the only class the `except`
clause names).  `pandasDatabaseError` is a `pandas.errors.DatabaseError`:
`pd.read_sql` on a raw DBAPI connection catches the driver exception of a
failed query and re-raises it under this class, which is not a subclass of
`mysql.connector.Error`. -/
inductive DBError where
  | connectorError (e : String)
  | pandasDatabaseError (e : String)
deriving DecidableEq

/-- `load_data`: the database fetch either yields the raw rows together
with the lookup tables, or fails with one of the two exception classes.
On success the rows are enriched and no message is surfaced.  A
`mysql.connector.Error` is caught by the `except` clause, which surfaces
the two messages and returns the empty record set.  A
`pandas.errors.DatabaseError` raised by `pd.read_sql` matches no `except`
clause and propagates out of `load_data` unchanged. -/
def load_data (fetch : Except DBError (List RawRec × Lookups)) :
    Except DBError (List Movimiento × List String) :=
  match fetch with
  | .ok (rows, lk) => .ok (rows.map (enrich lk), [])
  | .error (.connectorError e) => .ok ([], [db_error_msg e, db_info_msg])
  | .error (.pandasDatabaseError e) => .error (.pandasDatabaseError e)

/-- Membership test of the multiselect filter: `isin(selected_values)`. -/
def discreteKeep (sel : List String) (s : String) : Bool :=
  decide (s ∈ sel)

/-- One multiselect filter step:
`df_filtered[df_filtered[col].astype(str).isin(selected_values)]`, with
`f` the stringified column accessor. -/
def discreteFilter {α : Type} (sel : List String) (f : α → String)
    (l : List α) : List α :=
  l.filter (fun a => discreteKeep sel (f a))

/-- The boolean mask of the date-range filter,
`(col >= start_date) & (col <= end_date)`: a null date compares false on
both sides (as `NaT` does), a present date is kept iff it lies inside the
inclusive range. -/
def dateKeepRange (lo hi : Nat) : Option Nat → Bool
  | none => false
  | some x => decide (lo ≤ x) && decide (x ≤ hi)

/-- One date-range filter step over accessor `g`. -/
def dateFilter {α : Type} (lo hi : Nat) (g : α → Option Nat)
    (l : List α) : List α :=
  l.filter (fun a => dateKeepRange lo hi (g a))

/-- A date dimension whose column had no valid date is skipped (`continue`
in the sidebar loop leaves no entry in `filter_values`), so no filter is
applied for it; otherwise the selected `(start_date, end_date)` pair is
applied. -/
def optDateFilter {α : Type} (range : Option (Nat × Nat))
    (g : α → Option Nat) (l : List α) : List α :=
  match range with
  | none => l
  | some (lo, hi) => dateFilter lo hi g l

/-- The keep-test corresponding to a possibly-absent date range. -/
def optDateKeep (range : Option (Nat × Nat)) (d : Option Nat) : Bool :=
  match range with
  | none => true
  | some (lo, hi) => dateKeepRange lo hi d

/-- One selection per filter dimension, in the rôle of `filter_values`:
a selected string set for each discrete dimension and a selected inclusive
date range (or an absent one, for an all-null column) for each of the two
date dimensions. -/
structure FilterSpec where
  op_sel : List String
  lp_sel : List String
  dp_sel : List String
  arrival_range : Option (Nat × Nat)
  departure_range : Option (Nat × Nat)
  st_sel : List String
  fe_sel : List String
  pr_sel : List String
deriving DecidableEq

/-- The filtering loop of the dashboard: the filters are applied one after
the other in the order of `filter_cols` — operator, loading port,
discharge port, arrival date, departure date, status, full/empty,
port of registry. -/
def applyFilters (fs : FilterSpec) (rs : List Movimiento) : List Movimiento :=
  discreteFilter fs.pr_sel (fun r => pyStr r.port_register_)
    (discreteFilter fs.fe_sel (fun r => r.full_empty_)
      (discreteFilter fs.st_sel (fun r => r.status_)
        (optDateFilter fs.departure_range (fun r => r.departure_date)
          (optDateFilter fs.arrival_range (fun r => r.arrival_date)
            (discreteFilter fs.dp_sel (fun r => pyStr r.discharge_port)
              (discreteFilter fs.lp_sel (fun r => pyStr r.loading_port_)
                (discreteFilter fs.op_sel (fun r => pyStrOpt r.operator) rs)))))))

/-- The conjunction of all eight per-dimension keep-tests; a record
survives the filtering loop exactly when this holds. -/
def keepRecord (fs : FilterSpec) (r : Movimiento) : Bool :=
  discreteKeep fs.pr_sel (pyStr r.port_register_)
    && (discreteKeep fs.fe_sel r.full_empty_
    && (discreteKeep fs.st_sel r.status_
    && (optDateKeep fs.departure_range r.departure_date
    && (optDateKeep fs.arrival_range r.arrival_date
    && (discreteKeep fs.dp_sel (pyStr r.discharge_port)
    && (discreteKeep fs.lp_sel (pyStr r.loading_port_)
    && discreteKeep fs.op_sel (pyStrOpt r.operator)))))))

/-- The option list of a multiselect widget:
`sorted(df[col].astype(str).unique().tolist())`. -/
def discreteOptions (f : Movimiento → String) (rs : List Movimiento) :
    List String :=
  List.insertionSort (· ≤ ·) (rs.map f).dedup

/-- `Series.min()` over a list of valid dates (`NaN` entries already
removed): `none` exactly on the empty list. -/
def listMin : List Nat → Option Nat
  | [] => none
  | x :: xs =>
    match listMin xs with
    | none => some x
    | some m => some (min x m)

/-- `Series.max()` over a list of valid dates. -/
def listMax : List Nat → Option Nat
  | [] => none
  | x :: xs =>
    match listMax xs with
    | none => some x
    | some m => some (max x m)

/-- The default date selection of the sidebar for one date column: absent
when the column holds no valid date (the dimension is skipped with a
warning), and the observed `(min_date, max_date)` pair otherwise — both in
the `min_date == max_date` branch and as the default value of the slider. -/
def buildDateRange (dates : List (Option Nat)) : Option (Nat × Nat) :=
  match listMin (dates.filterMap id), listMax (dates.filterMap id) with
  | some lo, some hi => some (lo, hi)
  | _, _ => none

/-- The sidebar control chosen for a date column. -/
inductive DateControl where
  | skipped
  | fixedInfo (d : Nat)
  | slider (lo hi : Nat)
deriving DecidableEq

/-- The sidebar branch for a date column: a warning and no control when
the column has no valid date, a fixed informational value when the
observed minimum and maximum coincide, and a range slider otherwise. -/
def dateControl (dates : List (Option Nat)) : DateControl :=
  match listMin (dates.filterMap id), listMax (dates.filterMap id) with
  | some lo, some hi => if lo = hi then .fixedInfo lo else .slider lo hi
  | _, _ => .skipped

/-- `filter_values` as produced by the sidebar with every widget left at
its default: all distinct stringified values for each discrete dimension,
the full observed range (or nothing) for each date dimension. -/
def defaultSpec (rs : List Movimiento) : FilterSpec where
  op_sel := discreteOptions (fun r => pyStrOpt r.operator) rs
  lp_sel := discreteOptions (fun r => pyStr r.loading_port_) rs
  dp_sel := discreteOptions (fun r => pyStr r.discharge_port) rs
  arrival_range := buildDateRange (rs.map (fun r => r.arrival_date))
  departure_range := buildDateRange (rs.map (fun r => r.departure_date))
  st_sel := discreteOptions (fun r => r.status_) rs
  fe_sel := discreteOptions (fun r => r.full_empty_) rs
  pr_sel := discreteOptions (fun r => pyStr r.port_register_) rs

/-- The daily-arrivals aggregation
`df_filtered.groupby(arrival_date).size()`: group keys are the distinct
valid arrival dates in ascending order (`groupby` drops null keys and
sorts), each paired with the number of records carrying that date. -/
def dailyArrivals (rs : List Movimiento) : List (Nat × Nat) :=
  (List.insertionSort (· ≤ ·) (rs.filterMap (fun r => r.arrival_date)).dedup).map
    (fun d => (d, (rs.filterMap (fun r => r.arrival_date)).count d))

/-- The banner above the table:
`Mostrando N registros de M totales.` -/
def showing_msg (n m : Nat) : String :=
  "Mostrando " ++ toString n ++ " registros de " ++ toString m ++ " totales."

/-- The empty-state banner of the `else` branch of the dashboard body. -/
def no_data_msg : String :=
  "No se pudieron cargar los datos. Por favor, revisa la configuración de la base de datos."

/-- What the page renders: either the full dashboard over the filtered
record set, or the single warning banner of the empty state. -/
inductive Render where
  | dashboard (filtered : List Movimiento) (info : String)
  | warningEmpty (msg : String)
deriving DecidableEq

/-- The top-level branch `if not df.empty: ... else: st.warning(...)`:
an empty loaded set short-circuits to the empty-state banner, otherwise
the filters are applied and the dashboard is rendered. -/
def renderPipeline (loaded : List Movimiento) (fs : FilterSpec) : Render :=
  if loaded.isEmpty then Render.warningEmpty no_data_msg
  else Render.dashboard (applyFilters fs loaded)
    (showing_msg (applyFilters fs loaded).length loaded.length)

/-- The whole page run: `df = load_data()` followed by the body.  When
`load_data` returns, the body branches on `df.empty`; when the exception
escaped `load_data`, no line of the body runs and the script run ends with
the uncaught exception. -/
def renderPage (fetch : Except DBError (List RawRec × Lookups))
    (fs : FilterSpec) : Except DBError Render :=
  match load_data fetch with
  | .ok (df, _) => .ok (renderPipeline df fs)
  | .error e => .error e

/-- `cols_to_display`: the fixed, ordered projection shown in the detail
table. -/
def cols_to_display : List String :=
  ["id", "operator", "loading_port_", "discharge_port", "arrival_date",
   "arrival_time", "departure_date", "departure_time", "status_",
   "full_/_empty_", "port_register_", "ship_name", "container_number",
   "size", "type", "temperature", "description", "dgn_code", "imo",
   "call_sign", "trip_number", "delivery_port", "dock", "visit_no",
   "eqd_-_qual"]

/-- `column_mapping`: the header rename dictionary of the detail table. -/
def column_mapping : List (String × String) :=
  [("id", "ID"),
   ("status_", "Estatus"),
   ("full_/_empty_", "Lleno/Vacío"),
   ("operator", "Operador"),
   ("loading_port_", "Puerto Carga"),
   ("discharge_port", "Puerto Descarga"),
   ("arrival_date", "Fch. Llegada"),
   ("arrival_time", "Hr. Llegada"),
   ("departure_date", "Fch. Salida"),
   ("departure_time", "Hr. Salida"),
   ("port_register_", "Pto. Registro"),
   ("ship_name", "Nombre Navio"),
   ("container_number", "No. Contenedor"),
   ("size", "Tamaño"),
   ("type", "Tipo"),
   ("temperature", "Temperatura"),
   ("description", "Descripción"),
   ("dgn_code", "Cód. DGN"),
   ("imo", "IMO"),
   ("call_sign", "Letra de Radio"),
   ("trip_number", "No. Viaje"),
   ("delivery_port", "Pto. Entrega"),
   ("dock", "Muelle"),
   ("visit_no", "No. Visita"),
   ("eqd_-_qual", "Eqd-Qual")]

/-- `DataFrame.rename(columns=column_mapping)` on one header: the mapped
label when the column is a key of the dictionary, the column name itself
otherwise. -/
def renameHeader (c : String) : String :=
  (dict_get column_mapping c).getD c

/-- The displayed header row of the detail table, in projection order. -/
def displayHeaders : List String :=
  cols_to_display.map renameHeader

/-- The fillna step on one displayed cell: a missing value renders as the
empty string. -/
def displayCell (v : Option String) : String :=
  v.getD ""

/-- One row of `df_display` before the header rename, as
(column, rendered cell) pairs over the projection: `row` gives the
possibly-missing stringeable content of each cell. -/
def displayRow (row : String → Option String) : List (String × String) :=
  cols_to_display.map (fun c => (c, displayCell (row c)))

/-- A concrete enriched record used to instantiate universally quantified
statements; only the two date fields vary. -/
def mkMov (i : Int) (a dep : Option Nat) : Movimiento where
  id := i
  operator := some (.pstr "OPER")
  loading_port_ := .pstr "PALFLS"
  discharge_port := .pstr "PABLB"
  delivery_port := .pstr "PABLB"
  port_register_ := .pstr "PAONX"
  status_ := "LLENO"
  full_empty_ := "LLENO"
  eqd_qual_ := "CONTENEDOR"
  arrival_date := a
  departure_date := dep

/-- A filter specification with concrete selections, used to instantiate
universally quantified statements. -/
def fs0 : FilterSpec where
  op_sel := []
  lp_sel := []
  dp_sel := []
  arrival_range := none
  departure_range := none
  st_sel := []
  fe_sel := []
  pr_sel := []

/-- Concrete lookup tables used to instantiate universally quantified
statements. -/
def lk0 : Lookups where
  status_map := [(.pint 1, "LLENO")]
  content_map := [(.pint 1, "LLENO")]
  ports_map := [("US", "ESTADOS UNIDOS")]
  eqd_qual_map := [(.pint 1, "CONTENEDOR")]

/-- A concrete raw row used to instantiate universally quantified
statements. -/
def raw0 : RawRec where
  id := 1
  operator := some (.pstr "OPER")
  loading_port := some (.pstr "US")
  discharge_port := some (.pstr "PABLB")
  delivery_port := none
  port_register := none
  status := some (.pint 1)
  full_empty := some (.pint 1)
  eqd_qual := some (.pint 1)
  arrival_date := some 3
  departure_date := none

/-! Helper lemmas about the embedded operations. -/

theorem dict_get_eq_none {α β : Type} [DecidableEq α] {m : List (α × β)}
    {k : α} (h : ∀ v, (k, v) ∉ m) : dict_get m k = none := by
  induction m with
  | nil => rfl
  | cons p rest ih =>
    obtain ⟨k', v'⟩ := p
    have hrest : ∀ v, (k, v) ∉ rest := fun v hv => h v (List.mem_cons_of_mem _ hv)
    have hne : ¬(k' = k) := fun he => h v' (by rw [he]; exact List.mem_cons_self _ _)
    simp [dict_get, ih hrest, hne]

theorem dict_get_eq_some {α β : Type} [DecidableEq α] {m : List (α × β)}
    {k : α} {v : β} (hnd : (m.map Prod.fst).Nodup) (hmem : (k, v) ∈ m) :
    dict_get m k = some v := by
  induction m with
  | nil => cases hmem
  | cons p rest ih =>
    obtain ⟨k', v'⟩ := p
    simp only [List.map_cons, List.nodup_cons] at hnd
    rcases List.mem_cons.mp hmem with h | h
    · injection h with hk hv
      subst hk; subst hv
      have hnone : dict_get rest k = none :=
        dict_get_eq_none (fun v hv => hnd.1 (List.mem_map_of_mem Prod.fst hv))
      simp [dict_get, hnone]
    · simp [dict_get, ih hnd.2 h]

theorem optDateFilter_eq_filter {α : Type} (range : Option (Nat × Nat))
    (g : α → Option Nat) (l : List α) :
    optDateFilter range g l = l.filter (fun a => optDateKeep range (g a)) := by
  cases range with
  | none => exact (List.filter_eq_self.mpr (fun a _ => rfl)).symm
  | some p => obtain ⟨lo, hi⟩ := p; rfl

theorem applyFilters_eq_filter (fs : FilterSpec) (rs : List Movimiento) :
    applyFilters fs rs = rs.filter (keepRecord fs) := by
  simp only [applyFilters, discreteFilter, dateFilter, optDateFilter_eq_filter,
    List.filter_filter]
  rfl

theorem listMin_eq_none {l : List Nat} : listMin l = none ↔ l = [] := by
  cases l with
  | nil => simp [listMin]
  | cons x xs => cases h : listMin xs <;> simp [listMin, h]

theorem listMax_eq_none {l : List Nat} : listMax l = none ↔ l = [] := by
  cases l with
  | nil => simp [listMax]
  | cons x xs => cases h : listMax xs <;> simp [listMax, h]

theorem buildDateRange_eq_none {dates : List (Option Nat)} :
    buildDateRange dates = none ↔ ∀ o ∈ dates, o = none := by
  constructor
  · intro h o ho
    by_contra hne
    obtain ⟨x, hx⟩ := Option.ne_none_iff_exists'.mp hne
    have hx' : x ∈ dates.filterMap id := List.mem_filterMap.mpr ⟨o, ho, by rw [hx]; rfl⟩
    have hnil : dates.filterMap id ≠ [] := List.ne_nil_of_mem hx'
    obtain ⟨m1, hm1⟩ : ∃ m, listMin (dates.filterMap id) = some m := by
      cases hmin : listMin (dates.filterMap id) with
      | none => exact absurd (listMin_eq_none.mp hmin) hnil
      | some m => exact ⟨m, rfl⟩
    obtain ⟨m2, hm2⟩ : ∃ m, listMax (dates.filterMap id) = some m := by
      cases hmax : listMax (dates.filterMap id) with
      | none => exact absurd (listMax_eq_none.mp hmax) hnil
      | some m => exact ⟨m, rfl⟩
    simp [buildDateRange, hm1, hm2] at h
  · intro h
    have hnil : dates.filterMap id = [] := by
      rw [List.filterMap_eq_nil_iff]
      intro a ha
      rw [h a ha]; rfl
    simp [buildDateRange, hnil, listMin, listMax]

theorem buildDateRange_eq_some {dates : List (Option Nat)}
    (h : ∃ o ∈ dates, o ≠ none) : ∃ lo hi, buildDateRange dates = some (lo, hi) := by
  obtain ⟨o, ho, hne⟩ := h
  cases hb : buildDateRange dates with
  | none => exact absurd (buildDateRange_eq_none.mp hb o ho) hne
  | some p => obtain ⟨lo, hi⟩ := p; exact ⟨lo, hi, rfl⟩

theorem length_filterMap_isSome {α β : Type} (g : α → Option β) (l : List α) :
    (l.filterMap g).length = (l.filter (fun a => (g a).isSome)).length := by
  induction l with
  | nil => rfl
  | cons a t ih =>
    cases h : g a <;> simp [List.filterMap_cons, List.filter_cons, h, ih]

theorem dateKeepRange_point (d : Nat) (x : Option Nat) :
    dateKeepRange d d x = decide (x = some d) := by
  cases x with
  | none => simp [dateKeepRange]
  | some y =>
    simp only [dateKeepRange, Option.some.injEq]
    by_cases hy : y = d
    · subst hy; simp
    · have hd : ¬(d ≤ y) ∨ ¬(y ≤ d) := by omega
      rcases hd with h | h <;> simp [hy, h]

/-! Claim theorems. -/

/-- Claim C1: for every discrete filter dimension (stringified accessor
`f`), filtering with the empty selection yields zero records, and
filtering with the full option list — the sorted distinct stringified
values observed in the loaded set — returns the record set unchanged. -/
theorem c1_discrete_empty_full (f : Movimiento → String) (rs : List Movimiento) :
    discreteFilter [] f rs = [] ∧ discreteFilter (discreteOptions f rs) f rs = rs := by
  constructor
  · simp [discreteFilter, discreteKeep]
  · rw [show discreteFilter (discreteOptions f rs) f rs
        = rs.filter (fun a => discreteKeep (discreteOptions f rs) (f a)) from rfl]
    apply List.filter_eq_self.mpr
    intro a ha
    simp only [discreteKeep, decide_eq_true_eq, discreteOptions]
    exact (List.perm_insertionSort _ _).mem_iff.mpr
      (List.mem_dedup.mpr (List.mem_map_of_mem f ha))

/-- Claim C3: the date-range filter keeps a record iff its date is present
and lies within the inclusive bounds; a record whose date equals either
bound exactly is retained, and a record with a null date fails every date
filter. -/
theorem c3_date_filter_inclusive (lo hi : Nat) (g : Movimiento → Option Nat)
    (rs : List Movimiento) (r : Movimiento) :
    (r ∈ dateFilter lo hi g rs ↔ r ∈ rs ∧ ∃ x, g r = some x ∧ lo ≤ x ∧ x ≤ hi)
    ∧ (g r = none → r ∉ dateFilter lo hi g rs)
    ∧ (lo ≤ hi → r ∈ rs → g r = some lo → r ∈ dateFilter lo hi g rs)
    ∧ (lo ≤ hi → r ∈ rs → g r = some hi → r ∈ dateFilter lo hi g rs) := by
  have hmem : r ∈ dateFilter lo hi g rs
      ↔ r ∈ rs ∧ ∃ x, g r = some x ∧ lo ≤ x ∧ x ≤ hi := by
    simp only [dateFilter, List.mem_filter]
    constructor
    · rintro ⟨h1, h2⟩
      refine ⟨h1, ?_⟩
      cases hg : g r with
      | none => rw [hg] at h2; simp [dateKeepRange] at h2
      | some x =>
        rw [hg] at h2
        simp only [dateKeepRange, Bool.and_eq_true, decide_eq_true_eq] at h2
        exact ⟨x, rfl, h2.1, h2.2⟩
    · rintro ⟨h1, x, hx, hlo, hhi⟩
      refine ⟨h1, ?_⟩
      rw [hx]
      simp [dateKeepRange, hlo, hhi]
  refine ⟨hmem, ?_, ?_, ?_⟩
  · intro hnone hmem'
    obtain ⟨-, x, hx, -, -⟩ := hmem.mp hmem'
    rw [hnone] at hx; cases hx
  · intro hle hin heq
    exact hmem.mpr ⟨hin, lo, heq, Nat.le_refl _, hle⟩
  · intro hle hin heq
    exact hmem.mpr ⟨hin, hi, heq, hle, Nat.le_refl _⟩

/-- Witness for C3 at a concrete record whose arrival date equals the
lower bound of the range. -/
theorem c3_witness :
    (1 ≤ 2) ∧ mkMov 1 (some 1) none
      ∈ dateFilter 1 2 (fun r => r.arrival_date) [mkMov 1 (some 1) none] := by
  refine ⟨by decide, ?_⟩
  exact (c3_date_filter_inclusive 1 2 (fun r => r.arrival_date)
    [mkMov 1 (some 1) none] (mkMov 1 (some 1) none)).2.2.1
    (by decide) (List.mem_singleton.mpr rfl) rfl

/-- Claim C5: the filtering loop is idempotent — applying the same
`FilterSpec` to an already-filtered record set changes nothing. -/
theorem c5_filter_idempotent (fs : FilterSpec) (rs : List Movimiento) :
    applyFilters fs (applyFilters fs rs) = applyFilters fs rs := by
  rw [applyFilters_eq_filter, applyFilters_eq_filter, List.filter_filter]
  exact List.filter_congr (fun a _ => Bool.and_self _)

/-- Claim C8 counterexample: a query failure that `pd.read_sql` re-raises
as `pandas.errors.DatabaseError` matches no `except` clause of
`load_data`, so at this input `load_data` does not return an empty record
set with a surfaced message — the exception propagates past the Data
Access boundary and the page run ends without the empty-state render. -/
theorem c8_counterexample :
    load_data (Except.error (DBError.pandasDatabaseError
        "Execution failed on sql: SELECT * FROM movimiento_contenedores"))
      = Except.error (DBError.pandasDatabaseError
        "Execution failed on sql: SELECT * FROM movimiento_contenedores")
    ∧ load_data (Except.error (DBError.pandasDatabaseError
        "Execution failed on sql: SELECT * FROM movimiento_contenedores"))
      ≠ Except.ok ([], [db_error_msg
          "Execution failed on sql: SELECT * FROM movimiento_contenedores",
          db_info_msg])
    ∧ renderPage (Except.error (DBError.pandasDatabaseError
        "Execution failed on sql: SELECT * FROM movimiento_contenedores")) fs0
      ≠ Except.ok (Render.warningEmpty no_data_msg) :=
  by
  refine ⟨rfl, ?_, ?_⟩
  · intro h; exact Except.noConfusion h
  · intro h; exact Except.noConfusion h

/-- Claim C8 (amended): a database failure raised as
`mysql.connector.Error` is caught at the Data Access boundary —
`load_data` returns the empty record set plus the two surfaced messages
(the descriptive error first) and the pipeline short-circuits to the
empty-state warning banner — but a query failure re-raised by
`pd.read_sql` as `pandas.errors.DatabaseError` is not caught and
propagates past the boundary, ending the page run instead of reaching the
empty-state render. -/
theorem c8_error_empty_state (e : String) (fs : FilterSpec) :
    load_data (Except.error (DBError.connectorError e))
        = Except.ok ([], [db_error_msg e, db_info_msg])
    ∧ renderPage (Except.error (DBError.connectorError e)) fs
        = Except.ok (Render.warningEmpty no_data_msg)
    ∧ load_data (Except.error (DBError.pandasDatabaseError e))
        = Except.error (DBError.pandasDatabaseError e)
    ∧ renderPage (Except.error (DBError.pandasDatabaseError e)) fs
        = Except.error (DBError.pandasDatabaseError e) :=
  ⟨rfl, rfl, rfl, rfl⟩

/-- Claim C10: filtering re-derives a subsequence of the loaded set — every
filtered record appears in the loaded set, the relative (descending-id)
order is preserved, no record is duplicated, and the filtered count never
exceeds the loaded count, for every combination of selections. -/
theorem c10_filter_pure_sublist (fs : FilterSpec) (rs : List Movimiento) :
    (applyFilters fs rs).Sublist rs
    ∧ (applyFilters fs rs).length ≤ rs.length
    ∧ (∀ r, r ∈ applyFilters fs rs → r ∈ rs)
    ∧ (rs.Pairwise (fun a b => b.id < a.id) →
        (applyFilters fs rs).Pairwise (fun a b => b.id < a.id))
    ∧ (rs.Nodup → (applyFilters fs rs).Nodup) := by
  have hsub : (applyFilters fs rs).Sublist rs := by
    rw [applyFilters_eq_filter]; exact List.filter_sublist rs
  exact ⟨hsub, hsub.length_le, fun r hr => hsub.subset hr,
    fun h => h.sublist hsub, fun h => h.sublist hsub⟩

/-- Witness for C10 on a concrete two-record set ordered by descending id. -/
theorem c10_witness :
    ([mkMov 2 none none, mkMov 1 none none].Pairwise (fun a b => b.id < a.id))
    ∧ (applyFilters fs0 [mkMov 2 none none, mkMov 1 none none]).Pairwise
        (fun a b => b.id < a.id) := by
  refine ⟨by decide, ?_⟩
  exact (c10_filter_pure_sublist fs0 [mkMov 2 none none, mkMov 1 none none]).2.2.2.1
    (by decide)

/-- Claim C2: label enrichment resolves a code to the description in the lookup
when the code is a key, and otherwise to the documented fallback — the raw
code itself for the four port columns, the placeholder for the
status/content/equipment columns; a null code gives the empty string for
ports and the placeholder for the others, and every enriched field of a
record is always defined (the enrichment is total). -/
theorem c2_label_enrichment (pm : List (String × String))
    (sm : List (PyVal × String)) (lk : Lookups) (raw : RawRec) :
    (map_loading_port pm none = .pstr "")
    ∧ (∀ v desc, (pm.map Prod.fst).Nodup → (pyStr v, desc) ∈ pm →
        map_loading_port pm (some v) = .pstr desc)
    ∧ (∀ v, (∀ desc, (pyStr v, desc) ∉ pm) → map_loading_port pm (some v) = v)
    ∧ (mapFillna sm none = "Desconocido")
    ∧ (∀ v desc, (sm.map Prod.fst).Nodup → (v, desc) ∈ sm →
        mapFillna sm (some v) = desc)
    ∧ (∀ v, (∀ desc, (v, desc) ∉ sm) → mapFillna sm (some v) = "Desconocido")
    ∧ ((enrich lk raw).status_ = mapFillna lk.status_map raw.status)
    ∧ ((enrich lk raw).full_empty_ = mapFillna lk.content_map raw.full_empty)
    ∧ ((enrich lk raw).eqd_qual_ = mapFillna lk.eqd_qual_map raw.eqd_qual)
    ∧ ((enrich lk raw).loading_port_ = map_loading_port lk.ports_map raw.loading_port)
    ∧ ((enrich lk raw).discharge_port = map_loading_port lk.ports_map raw.discharge_port)
    ∧ ((enrich lk raw).delivery_port = map_loading_port lk.ports_map raw.delivery_port)
    ∧ ((enrich lk raw).port_register_ = map_loading_port lk.ports_map raw.port_register) := by
  refine ⟨rfl, ?_, ?_, rfl, ?_, ?_, rfl, rfl, rfl, rfl, rfl, rfl, rfl⟩
  · intro v desc hnd hmemp
    simp [map_loading_port, dict_get_eq_some hnd hmemp]
  · intro v hnot
    simp [map_loading_port, dict_get_eq_none hnot]
  · intro v desc hnd hmemp
    simp [mapFillna, dict_get_eq_some hnd hmemp]
  · intro v hnot
    simp [mapFillna, dict_get_eq_none hnot]

/-- Witness for C2 at concrete lookups: a mapped port code resolves to its
description, the unmapped code "ZZZ99" passes through verbatim, and an
unmapped status code falls back to the placeholder. -/
theorem c2_witness :
    map_loading_port [("US", "ESTADOS UNIDOS")] (some (.pstr "US"))
      = .pstr "ESTADOS UNIDOS"
    ∧ map_loading_port [("US", "ESTADOS UNIDOS")] (some (.pstr "ZZZ99"))
      = .pstr "ZZZ99"
    ∧ mapFillna [(.pint 1, "LLENO")] (some (.pint 2)) = "Desconocido" := by
  have h := c2_label_enrichment [("US", "ESTADOS UNIDOS")] [(.pint 1, "LLENO")] lk0 raw0
  refine ⟨h.2.1 (.pstr "US") "ESTADOS UNIDOS" (by decide) (by decide), ?_, ?_⟩
  · refine h.2.2.1 (.pstr "ZZZ99") ?_
    intro desc hmemp
    have heq := List.mem_singleton.mp hmemp
    have hk : ("ZZZ99" : String) = "US" := congrArg Prod.fst heq
    exact absurd hk (by decide)
  · refine h.2.2.2.2.2.1 (.pint 2) ?_
    intro desc hmemp
    have heq := List.mem_singleton.mp hmemp
    have hk : PyVal.pint 2 = PyVal.pint 1 := congrArg Prod.fst heq
    exact absurd hk (by decide)

/-- Claim C4 counterexample: the detail table renames the `call_sign`
column to "Letra de Radio", not to the label "Distintivo" stated in the
mapping of the spec. -/
theorem c4_counterexample :
    renameHeader "call_sign" = "Letra de Radio"
    ∧ renameHeader "call_sign" ≠ "Distintivo" := by
  exact ⟨by decide, by decide⟩

/-- Claim C4 (amended): the detail table is the fixed ordered projection
`cols_to_display` with headers renamed per the `column_mapping` of the source —
`call_sign` appearing as "Letra de Radio" — and a missing cell renders as
the empty string while a present cell renders verbatim. -/
theorem c4_detail_table (row : String → Option String) :
    displayHeaders
      = ["ID", "Operador", "Puerto Carga", "Puerto Descarga", "Fch. Llegada",
         "Hr. Llegada", "Fch. Salida", "Hr. Salida", "Estatus", "Lleno/Vacío",
         "Pto. Registro", "Nombre Navio", "No. Contenedor", "Tamaño", "Tipo",
         "Temperatura", "Descripción", "Cód. DGN", "IMO", "Letra de Radio",
         "No. Viaje", "Pto. Entrega", "Muelle", "No. Visita", "Eqd-Qual"]
    ∧ (∀ c s, (c, s) ∈ displayRow row → row c = none → s = "")
    ∧ (∀ c s v, (c, s) ∈ displayRow row → row c = some v → s = v) := by
  refine ⟨by decide, ?_, ?_⟩
  · intro c s hmemp hnone
    obtain ⟨c', hc', heq⟩ := List.mem_map.mp hmemp
    injection heq with h1 h2
    subst h1
    rw [hnone] at h2
    exact h2.symm
  · intro c s v hmemp hsome
    obtain ⟨c', hc', heq⟩ := List.mem_map.mp hmemp
    injection heq with h1 h2
    subst h1
    rw [hsome] at h2
    exact h2.symm

/-- Witness for C4 on the all-null row: the `id` cell of the projection
renders as the empty string. -/
theorem c4_witness :
    (("id", "") ∈ displayRow (fun _ => none)) ∧ ("" : String) = "" := by
  refine ⟨by decide, ?_⟩
  exact (c4_detail_table (fun _ => none)).2.1 "id" "" (by decide) rfl

/-- Claim C6: the daily-arrivals aggregation counts only records with a
present (parsed) arrival date — its per-day counts sum to the number of
such records, which never exceeds the filtered total. -/
theorem c6_daily_arrivals (rs : List Movimiento) :
    ((dailyArrivals rs).map Prod.snd).sum
        = (rs.filter (fun r => (r.arrival_date).isSome)).length
    ∧ ((dailyArrivals rs).map Prod.snd).sum ≤ rs.length := by
  have hsum : ((dailyArrivals rs).map Prod.snd).sum
      = (rs.filterMap (fun r => r.arrival_date)).length := by
    unfold dailyArrivals
    rw [List.map_map]
    have hperm := ((List.perm_insertionSort (· ≤ ·)
      (rs.filterMap (fun r => r.arrival_date)).dedup).map
      (Prod.snd ∘ fun d => (d, (rs.filterMap (fun r => r.arrival_date)).count d))).sum_eq
    rw [hperm]
    simpa [Function.comp] using
      List.sum_map_count_dedup_eq_length (rs.filterMap (fun r => r.arrival_date))
  refine ⟨?_, ?_⟩
  · rw [hsum, length_filterMap_isSome]
  · rw [hsum]; exact List.length_filterMap_le _ _

/-- Claim C7: when the observed minimum and maximum of a date column
coincide, the sidebar exposes the fixed informational value rather than an
interactive range control, and filtering with the resulting single-day
range keeps exactly the records whose date equals that day (records with
null dates excluded). -/
theorem c7_single_date (rs : List Movimiento) (d : Nat)
    (hmin : listMin ((rs.map (fun r => r.arrival_date)).filterMap id) = some d)
    (hmax : listMax ((rs.map (fun r => r.arrival_date)).filterMap id) = some d) :
    dateControl (rs.map (fun r => r.arrival_date)) = DateControl.fixedInfo d
    ∧ dateFilter d d (fun r => r.arrival_date) rs
        = rs.filter (fun r => decide (r.arrival_date = some d)) := by
  constructor
  · unfold dateControl
    rw [hmin, hmax]
    simp
  · unfold dateFilter
    exact List.filter_congr (fun a _ => dateKeepRange_point d a.arrival_date)

/-- Witness for C7 on a concrete set whose only valid arrival date is
day 5. -/
theorem c7_witness :
    listMin (([mkMov 1 (some 5) (some 5), mkMov 2 none (some 5)].map
      (fun r => r.arrival_date)).filterMap id) = some 5
    ∧ dateControl ([mkMov 1 (some 5) (some 5), mkMov 2 none (some 5)].map
        (fun r => r.arrival_date)) = DateControl.fixedInfo 5 := by
  refine ⟨by decide, ?_⟩
  exact (c7_single_date [mkMov 1 (some 5) (some 5), mkMov 2 none (some 5)] 5
    (by decide) (by decide)).1

/-- Claim C9: with every sidebar control at its default, a record whose
arrival or departure date is null is excluded whenever that column holds
at least one valid date — so the default filter state does not reproduce
the loaded set — and a date column builds no range (is skipped, hence not
filtered on) exactly when it is entirely null. -/
theorem c9_default_excludes_null_dates (rs : List Movimiento) (r : Movimiento)
    (hmem : r ∈ rs) :
    (r.arrival_date = none → (∃ r2 ∈ rs, r2.arrival_date ≠ none) →
        r ∉ applyFilters (defaultSpec rs) rs
        ∧ applyFilters (defaultSpec rs) rs ≠ rs)
    ∧ (r.departure_date = none → (∃ r2 ∈ rs, r2.departure_date ≠ none) →
        r ∉ applyFilters (defaultSpec rs) rs
        ∧ applyFilters (defaultSpec rs) rs ≠ rs)
    ∧ ((∀ r2 ∈ rs, r2.arrival_date = none)
        ↔ (defaultSpec rs).arrival_range = none)
    ∧ ((∀ r2 ∈ rs, r2.departure_date = none)
        ↔ (defaultSpec rs).departure_range = none) := by
  have hne : r ∉ applyFilters (defaultSpec rs) rs →
      applyFilters (defaultSpec rs) rs ≠ rs :=
    fun hnot heq => hnot (by rw [heq]; exact hmem)
  have harr : r.arrival_date = none → (∃ r2 ∈ rs, r2.arrival_date ≠ none) →
      r ∉ applyFilters (defaultSpec rs) rs := by
    intro hn hex hin
    rw [applyFilters_eq_filter] at hin
    obtain ⟨-, hkeep⟩ := List.mem_filter.mp hin
    simp only [keepRecord, Bool.and_eq_true] at hkeep
    have hdk : optDateKeep (defaultSpec rs).arrival_range r.arrival_date = true :=
      hkeep.2.2.2.2.1
    obtain ⟨lo, hi, hrange⟩ : ∃ lo hi,
        buildDateRange (rs.map (fun r => r.arrival_date)) = some (lo, hi) :=
      buildDateRange_eq_some
        (by obtain ⟨r2, h2, h3⟩ := hex
            exact ⟨r2.arrival_date, List.mem_map_of_mem _ h2, h3⟩)
    rw [show (defaultSpec rs).arrival_range
        = buildDateRange (rs.map (fun r => r.arrival_date)) from rfl,
      hrange, hn] at hdk
    simp [optDateKeep, dateKeepRange] at hdk
  have hdep : r.departure_date = none → (∃ r2 ∈ rs, r2.departure_date ≠ none) →
      r ∉ applyFilters (defaultSpec rs) rs := by
    intro hn hex hin
    rw [applyFilters_eq_filter] at hin
    obtain ⟨-, hkeep⟩ := List.mem_filter.mp hin
    simp only [keepRecord, Bool.and_eq_true] at hkeep
    have hdk : optDateKeep (defaultSpec rs).departure_range r.departure_date = true :=
      hkeep.2.2.2.1
    obtain ⟨lo, hi, hrange⟩ : ∃ lo hi,
        buildDateRange (rs.map (fun r => r.departure_date)) = some (lo, hi) :=
      buildDateRange_eq_some
        (by obtain ⟨r2, h2, h3⟩ := hex
            exact ⟨r2.departure_date, List.mem_map_of_mem _ h2, h3⟩)
    rw [show (defaultSpec rs).departure_range
        = buildDateRange (rs.map (fun r => r.departure_date)) from rfl,
      hrange, hn] at hdk
    simp [optDateKeep, dateKeepRange] at hdk
  have hskipA : (∀ r2 ∈ rs, r2.arrival_date = none)
      ↔ (defaultSpec rs).arrival_range = none := by
    rw [show (defaultSpec rs).arrival_range
        = buildDateRange (rs.map (fun r => r.arrival_date)) from rfl]
    constructor
    · intro h
      rw [buildDateRange_eq_none]
      intro o ho
      obtain ⟨r2, hr2, rfl⟩ := List.mem_map.mp ho
      exact h r2 hr2
    · intro h r2 hr2
      exact buildDateRange_eq_none.mp h _ (List.mem_map_of_mem _ hr2)
  have hskipD : (∀ r2 ∈ rs, r2.departure_date = none)
      ↔ (defaultSpec rs).departure_range = none := by
    rw [show (defaultSpec rs).departure_range
        = buildDateRange (rs.map (fun r => r.departure_date)) from rfl]
    constructor
    · intro h
      rw [buildDateRange_eq_none]
      intro o ho
      obtain ⟨r2, hr2, rfl⟩ := List.mem_map.mp ho
      exact h r2 hr2
    · intro h r2 hr2
      exact buildDateRange_eq_none.mp h _ (List.mem_map_of_mem _ hr2)
  exact ⟨fun hn hex => ⟨harr hn hex, hne (harr hn hex)⟩,
    fun hn hex => ⟨hdep hn hex, hne (hdep hn hex)⟩, hskipA, hskipD⟩

/-- Witness for C9: in a two-record set where one arrival date parsed, the
record with the null arrival date falls out of the default-filtered set. -/
theorem c9_witness :
    (mkMov 2 none (some 3) ∈ [mkMov 1 (some 3) (some 3), mkMov 2 none (some 3)])
    ∧ mkMov 2 none (some 3)
        ∉ applyFilters
            (defaultSpec [mkMov 1 (some 3) (some 3), mkMov 2 none (some 3)])
            [mkMov 1 (some 3) (some 3), mkMov 2 none (some 3)] := by
  refine ⟨by decide, ?_⟩
  exact ((c9_default_excludes_null_dates
    [mkMov 1 (some 3) (some 3), mkMov 2 none (some 3)] (mkMov 2 none (some 3))
    (by decide)).1 rfl
    ⟨mkMov 1 (some 3) (some 3), by decide, by decide⟩).1
